import Mathlib

set_option linter.unusedVariables false

/-!
Shallow embedding of `src/osnap/analytics/cluster.py`.

The module is a flat set of eleven adapter functions.  Each adapter constructs
one model object from an external library (sklearn, hdbscan, region, spenc),
calls that library's fit entry point on it, possibly assigns a `labels_`
attribute, and returns the object.  The embedding records, for every call,
the exact trace the Python body produces: the constructed object (identified
by an allocation id, so that "returns the same object, not a copy" is
expressible), the constructor arguments in source order, the fit calls with
their positional/keyword arguments, the attributes assigned after fitting,
and any warnings emitted.  External library behaviour (fitting, BIC values,
prediction) is opaque and is represented symbolically.
-/

namespace Cluster

/-- Runtime values flowing through the adapters: Python ints, floats
(represented as rationals), strings, booleans, `None`, `-np.inf`, opaque
caller-supplied objects such as `X` and `w` (identified by a tag), attribute
projections such as `w.sparse` and `X.values`, attributes read back from a
constructed model (such as `current_labels_`), and the symbolic result of
`model.predict(X)`. -/
inductive Val where
  | int (n : Int)
  | rat (q : ℚ)
  | str (s : String)
  | bool (b : Bool)
  | none
  | negInf
  | obj (tag : Nat)
  | attr (base : Val) (field : String)
  | modelAttr (id : Nat) (field : String)
  | predictOf (id : Nat) (x : Val)
deriving Repr, DecidableEq

/-- One argument of a Python call: positional, or keyword. -/
inductive Arg where
  | pos (v : Val)
  | kw (name : String) (v : Val)
deriving Repr, DecidableEq

/-- One call to a fit entry point of an external model: the method name
(`fit` or `fit_from_w`) and its arguments in source order. -/
structure FitCall where
  method : String
  args : List Arg
deriving Repr, DecidableEq

/-- A model object constructed from an external library: the allocation id
(object identity), the library and class it comes from, the constructor
arguments, the fit calls performed on it in order, and the attributes the
adapter assigned to it after construction, in order. -/
structure ModelObj where
  id : Nat
  lib : String
  cls : String
  ctorArgs : List Arg
  fits : List FitCall
  setAttrs : List (String × Val)
deriving Repr, DecidableEq

/-- The value-level result of an adapter call that returned normally:
all library objects constructed during the call (in their final state)
and the object that was returned. -/
structure AdapterResult where
  allocated : List ModelObj
  model : ModelObj
deriving Repr, DecidableEq

/-- The full outcome of an adapter call: warnings emitted, and either a
normal result or `none` for an uncaught exception (the only such path is
the unbound `best_gmm` read in `gaussian_mixture`). -/
structure AdapterOutcome where
  warnings : List String
  result : Option AdapterResult
deriving Repr, DecidableEq

/-- The `**kwargs` dictionary: extra keyword arguments, as name/value pairs. -/
abbrev KW := List (String × Val)

/-- Checks a predicate on the normal result of an outcome; an outcome with
no returned value (an exception) imposes no obligation on the returned model. -/
def resultAll (o : AdapterOutcome) (p : AdapterResult → Bool) : Bool :=
  match o.result with
  | some r => p r
  | Option.none => true

/-- The returned model delegated to a fit routine and is one of the objects
the named external library constructed during the call (object identity,
not a copy or wrapper). -/
def fittedLibModel (lib cls : String) (r : AdapterResult) : Bool :=
  decide (r.model ∈ r.allocated) && (r.model.lib == lib) &&
    (r.model.cls == cls) && decide (r.model.fits ≠ [])

/-- The outcome returned normally, and the returned model is a fitted model
of the named external class. -/
def returnsFittedLib (o : AdapterOutcome) (lib cls : String) : Bool :=
  match o.result with
  | some r => fittedLibModel lib cls r
  | Option.none => false

/-- The methods of the fit calls performed on the returned model. -/
def fitMethods (o : AdapterOutcome) : List String :=
  match o.result with
  | some r => r.model.fits.map (fun f => f.method)
  | Option.none => []

/-- The value carried by a call argument. -/
def argVal : Arg → Val
  | Arg.pos v => v
  | Arg.kw _ v => v

/-- All argument values of all fit calls performed on the returned model. -/
def fitArgVals (o : AdapterOutcome) : List Val :=
  match o.result with
  | some r => (r.model.fits.map (fun f => f.args.map argVal)).flatten
  | Option.none => []

/-- The attributes assigned to the returned model after construction. -/
def outcomeSetAttrs (o : AdapterOutcome) : Option (List (String × Val)) :=
  o.result.map (fun r => r.model.setAttrs)

/-- Wraps a single constructed-and-returned model as a normal outcome with
no warnings: the shape of every adapter body except `gaussian_mixture`. -/
def singleModel (m : ModelObj) : AdapterOutcome :=
  { warnings := [], result := some { allocated := [m], model := m } }

/-- Embeds `ward` (cluster.py:16-38): `AgglomerativeClustering(n_clusters=n_clusters,
linkage='ward')`, then `model.fit(X)`, then return `model`. -/
def ward (X : Val) (n_clusters : Int) (kwargs : KW) (fresh : Nat) : AdapterOutcome :=
  singleModel
    { id := fresh, lib := "sklearn", cls := "AgglomerativeClustering",
      ctorArgs := [Arg.kw "n_clusters" (Val.int n_clusters),
                   Arg.kw "linkage" (Val.str "ward")],
      fits := [⟨"fit", [Arg.pos X]⟩], setAttrs := [] }

/-- Embeds `kmeans` (cluster.py:41-70): `KMeans(n_clusters, random_state=seed)`,
then `model.fit(X)`, then return `model`. -/
def kmeans (X : Val) (n_clusters : Int) (seed : Val) (kwargs : KW) (fresh : Nat) :
    AdapterOutcome :=
  singleModel
    { id := fresh, lib := "sklearn", cls := "KMeans",
      ctorArgs := [Arg.pos (Val.int n_clusters), Arg.kw "random_state" seed],
      fits := [⟨"fit", [Arg.pos X]⟩], setAttrs := [] }

/-- Embeds `affinity_propagation` (cluster.py:73-106):
`AffinityPropagation(preference=preference, damping=damping, verbose=verbose)`,
then `model.fit(X)`, then return `model`.  The `max_iter` parameter is
accepted but does not occur in the body. -/
def affinity_propagation (X damping preference verbose max_iter : Val)
    (kwargs : KW) (fresh : Nat) : AdapterOutcome :=
  singleModel
    { id := fresh, lib := "sklearn", cls := "AffinityPropagation",
      ctorArgs := [Arg.kw "preference" preference, Arg.kw "damping" damping,
                   Arg.kw "verbose" verbose],
      fits := [⟨"fit", [Arg.pos X]⟩], setAttrs := [] }

/-- Embeds `spectral` (cluster.py:109-140): `SpectralClustering(n_clusters=
n_clusters, n_jobs=n_jobs, affinity=affinity)`, then `model.fit(X)`. -/
def spectral (X : Val) (n_clusters n_jobs : Int) (affinity : String)
    (kwargs : KW) (fresh : Nat) : AdapterOutcome :=
  singleModel
    { id := fresh, lib := "sklearn", cls := "SpectralClustering",
      ctorArgs := [Arg.kw "n_clusters" (Val.int n_clusters),
                   Arg.kw "n_jobs" (Val.int n_jobs),
                   Arg.kw "affinity" (Val.str affinity)],
      fits := [⟨"fit", [Arg.pos X]⟩], setAttrs := [] }

/-- Embeds `hdbscan` (cluster.py:215-237): `HDBSCAN(min_cluster_size=
min_cluster_size)`, then `model.fit(X)`.  The `gen_min_span_tree` parameter
is accepted but does not occur in the body. -/
def hdbscan (X : Val) (min_cluster_size : Int) (gen_min_span_tree : Val)
    (kwargs : KW) (fresh : Nat) : AdapterOutcome :=
  singleModel
    { id := fresh, lib := "hdbscan", cls := "HDBSCAN",
      ctorArgs := [Arg.kw "min_cluster_size" (Val.int min_cluster_size)],
      fits := [⟨"fit", [Arg.pos X]⟩], setAttrs := [] }

/-- Embeds `ward_spatial` (cluster.py:242-268): `AgglomerativeClustering(
n_clusters=n_clusters, connectivity=w.sparse, linkage='ward')`, then
`model.fit(X)`. -/
def ward_spatial (X w : Val) (n_clusters : Int) (kwargs : KW) (fresh : Nat) :
    AdapterOutcome :=
  singleModel
    { id := fresh, lib := "sklearn", cls := "AgglomerativeClustering",
      ctorArgs := [Arg.kw "n_clusters" (Val.int n_clusters),
                   Arg.kw "connectivity" (Val.attr w "sparse"),
                   Arg.kw "linkage" (Val.str "ward")],
      fits := [⟨"fit", [Arg.pos X]⟩], setAttrs := [] }

/-- Embeds `spenc` (cluster.py:271-300): `SPENC(n_clusters=n_clusters,
gamma=gamma)`, then `model.fit(X, w.sparse)`. -/
def spenc (X w : Val) (n_clusters gamma : Int) (kwargs : KW) (fresh : Nat) :
    AdapterOutcome :=
  singleModel
    { id := fresh, lib := "spenc", cls := "SPENC",
      ctorArgs := [Arg.kw "n_clusters" (Val.int n_clusters),
                   Arg.kw "gamma" (Val.int gamma)],
      fits := [⟨"fit", [Arg.pos X, Arg.pos (Val.attr w "sparse")]⟩],
      setAttrs := [] }

/-- Embeds `skater` (cluster.py:303-338): `Spanning_Forest()`, then
`model.fit(n_clusters, w, data=X, quorum=floor, trace=trace)`, then
`model.labels_ = model.current_labels_`.  The `islands` parameter is
accepted but does not occur in the body. -/
def skater (X w : Val) (n_clusters : Int) (floor trace islands : Val)
    (kwargs : KW) (fresh : Nat) : AdapterOutcome :=
  singleModel
    { id := fresh, lib := "region", cls := "Spanning_Forest",
      ctorArgs := [],
      fits := [⟨"fit", [Arg.pos (Val.int n_clusters), Arg.pos w,
                        Arg.kw "data" X, Arg.kw "quorum" floor,
                        Arg.kw "trace" trace]⟩],
      setAttrs := [("labels_", Val.modelAttr fresh "current_labels_")] }

/-- Embeds `azp` (cluster.py:341-364): `AZP()`, then
`model.fit_from_w(attr=X, w=w, n_regions=n_clusters)`. -/
def azp (X w : Val) (n_clusters : Int) (kwargs : KW) (fresh : Nat) :
    AdapterOutcome :=
  singleModel
    { id := fresh, lib := "region", cls := "AZP",
      ctorArgs := [],
      fits := [⟨"fit_from_w", [Arg.kw "attr" X, Arg.kw "w" w,
                               Arg.kw "n_regions" (Val.int n_clusters)]⟩],
      setAttrs := [] }

/-- Embeds `max_p` (cluster.py:367-394): `MaxPRegionsHeu()`, then
`model.fit_from_w(w, X.values, threshold_variable, threshold)`. -/
def max_p (X w : Val) (threshold_variable : String) (threshold : Int)
    (kwargs : KW) (fresh : Nat) : AdapterOutcome :=
  singleModel
    { id := fresh, lib := "region", cls := "MaxPRegionsHeu",
      ctorArgs := [],
      fits := [⟨"fit_from_w", [Arg.pos w, Arg.pos (Val.attr X "values"),
                               Arg.pos (Val.str threshold_variable),
                               Arg.pos (Val.int threshold)]⟩],
      setAttrs := [] }

/-- The warning text of cluster.py:178-180 (the Python line continuations
join the pieces without spaces). -/
def gmWarnText : String :=
  "Note: Gaussian Mixture Clustering is probabilistic--cluster labels may be different for different runs. If you need consistency,you should set the `random_state` parameter"

/-- The `cv_types` list of cluster.py:190. -/
def cv_types : List String := ["spherical", "tied", "diag", "full"]

/-- The `n_components_range` of cluster.py:188-189: `range(1, max_clusters + 1)`,
i.e. `[1, ..., max_clusters]`, empty when `max_clusters < 1`. -/
def gmRange (max_clusters : Int) : List Int :=
  (List.range max_clusters.toNat).map (fun k => (k : Int) + 1)

/-- State of the BIC model-selection loop of cluster.py:186-201: the next
allocation id, the GaussianMixture objects constructed so far (in order),
the `bic` list, `lowest_bic` (where `Option.none` stands for the initial
`np.infty`), and `best_gmm` (where `Option.none` means the variable is not
yet bound). -/
structure GMState where
  nextId : Nat
  gmms : List ModelObj
  bics : List ℚ
  lowest_bic : Option ℚ
  best_gmm : Option ModelObj
deriving Repr, DecidableEq

/-- The comparison `bic[-1] < lowest_bic` of cluster.py:199, with
`lowest_bic = np.infty` represented by `Option.none`: a finite BIC value is
always below infinity. -/
def ltLowest (b : ℚ) (lowest : Option ℚ) : Bool :=
  match lowest with
  | Option.none => true
  | some q => decide (b < q)

/-- The `GaussianMixture(n_components=n_components, random_state=random_state,
covariance_type=cv_type)` object of cluster.py:194-197, already fitted on
`X`. -/
def gmNew (X random_state : Val) (cv_type : String) (n_components : Int)
    (id : Nat) : ModelObj :=
  { id := id, lib := "sklearn", cls := "GaussianMixture",
    ctorArgs := [Arg.kw "n_components" (Val.int n_components),
                 Arg.kw "random_state" random_state,
                 Arg.kw "covariance_type" (Val.str cv_type)],
    fits := [⟨"fit", [Arg.pos X]⟩], setAttrs := [] }

/-- One iteration of the inner loop body of cluster.py:192-201: construct
a `GaussianMixture`, fit it on `X`, append its BIC, and update
`lowest_bic`/`best_gmm` when the new BIC is strictly lower.  The external
`gmm.bic(X)` is the opaque function `bicF` of the covariance type and the
component count. -/
def gmStep (X random_state : Val) (bicF : String → Int → ℚ)
    (s : GMState) (cv_type : String) (n_components : Int) : GMState :=
  if ltLowest (bicF cv_type n_components) s.lowest_bic then
    { nextId := s.nextId + 1,
      gmms := s.gmms ++ [gmNew X random_state cv_type n_components s.nextId],
      bics := s.bics ++ [bicF cv_type n_components],
      lowest_bic := some (bicF cv_type n_components),
      best_gmm := some (gmNew X random_state cv_type n_components s.nextId) }
  else
    { nextId := s.nextId + 1,
      gmms := s.gmms ++ [gmNew X random_state cv_type n_components s.nextId],
      bics := s.bics ++ [bicF cv_type n_components],
      lowest_bic := s.lowest_bic, best_gmm := s.best_gmm }

/-- The two nested loops of cluster.py:191-201: `for cv_type in cv_types:
for n_components in n_components_range: ...`, starting from
`lowest_bic = np.infty` and `best_gmm` unbound. -/
def gmLoop (X random_state : Val) (bicF : String → Int → ℚ)
    (max_clusters : Int) (fresh : Nat) : GMState :=
  cv_types.foldl
    (fun s cv_type =>
      (gmRange max_clusters).foldl
        (fun s2 n_components => gmStep X random_state bicF s2 cv_type n_components) s)
    { nextId := fresh, gmms := [], bics := [], lowest_bic := Option.none,
      best_gmm := Option.none }

/-- Lines 204 and 210-211 of cluster.py on the `best_model` path:
`model = best_gmm` (an unbound-variable error, `Option.none`, when the loop
never bound it), then `model.fit(X)` and `model.labels_ = model.predict(X)`
mutate the selected object in place; the allocation list reflects the final
state of every constructed object. -/
def gmFinish (X : Val) (s : GMState) : Option (List ModelObj × ModelObj) :=
  match s.best_gmm with
  | Option.none => Option.none
  | some g =>
    let g2 : ModelObj :=
      { g with fits := g.fits ++ [⟨"fit", [Arg.pos X]⟩],
               setAttrs := [("labels_", Val.predictOf g.id X)] }
    some (s.gmms.map (fun m => if m.id = g.id then g2 else m), g2)

/-- The single-model path of cluster.py:207-211 (taken when `best_model` is
not `True`): construct `GaussianMixture(n_components=n_clusters,
random_state=random_state, covariance_type=covariance_type)`, fit it on `X`,
and set `model.labels_ = model.predict(X)`. -/
def gmSingle (X : Val) (n_clusters : Int) (covariance_type : String)
    (random_state : Val) (fresh : Nat) : ModelObj :=
  { id := fresh, lib := "sklearn", cls := "GaussianMixture",
    ctorArgs := [Arg.kw "n_components" (Val.int n_clusters),
                 Arg.kw "random_state" random_state,
                 Arg.kw "covariance_type" (Val.str covariance_type)],
    fits := [⟨"fit", [Arg.pos X]⟩],
    setAttrs := [("labels_", Val.predictOf fresh X)] }

/-- Embeds `gaussian_mixture` (cluster.py:143-212): warn when `random_state`
is `None`; when `best_model is True`, run the BIC selection loop and return
the best model (an error outcome when `best_gmm` was never bound), otherwise
construct a single `GaussianMixture`; in both return paths the returned model
is fitted on `X` and given `labels_ = predict(X)`. -/
def gaussian_mixture (X : Val) (n_clusters : Int) (covariance_type : String)
    (best_model : Val) (max_clusters : Int) (random_state : Val)
    (kwargs : KW) (bicF : String → Int → ℚ) (fresh : Nat) : AdapterOutcome :=
  let ws : List String := if random_state = Val.none then [gmWarnText] else []
  if best_model = Val.bool true then
    match gmFinish X (gmLoop X random_state bicF max_clusters fresh) with
    | Option.none => { warnings := ws, result := Option.none }
    | some p => { warnings := ws, result := some { allocated := p.1, model := p.2 } }
  else
    let m0 := gmSingle X n_clusters covariance_type random_state fresh
    { warnings := ws, result := some { allocated := [m0], model := m0 } }

/-- The model computation of `gaussian_mixture` alone, without the
warning-emission step of cluster.py:177-180: used to state that the returned
model is computed the same way whether or not the warning fired. -/
def gmCompute (X : Val) (n_clusters : Int) (covariance_type : String)
    (best_model : Val) (max_clusters : Int) (random_state : Val)
    (kwargs : KW) (bicF : String → Int → ℚ) (fresh : Nat) : Option AdapterResult :=
  if best_model = Val.bool true then
    match gmFinish X (gmLoop X random_state bicF max_clusters fresh) with
    | Option.none => Option.none
    | some p => some { allocated := p.1, model := p.2 }
  else
    let m0 := gmSingle X n_clusters covariance_type random_state fresh
    some { allocated := [m0], model := m0 }

/-! Syntactic view of the module: the `def` lines and the top-level
statements of cluster.py, embedded as data. -/

/-- One declared parameter of an adapter's `def` line: its name and whether
it has a default value. -/
structure Param where
  name : String
  hasDefault : Bool
deriving Repr, DecidableEq

/-- The `def` line of one adapter, read off cluster.py: name, declared
parameters in order (before `**kwargs`), whether the signature ends in
`**kwargs`, whether it is one of the spatially-constrained adapters, and
the external library and class it dispatches to. -/
structure AdapterInfo where
  name : String
  params : List Param
  hasKwargs : Bool
  spatial : Bool
  lib : String
  cls : String
deriving Repr, DecidableEq

/-- The eleven adapter `def` lines of cluster.py, in source order. -/
def moduleAdapters : List AdapterInfo :=
  [⟨"ward", [⟨"X", false⟩, ⟨"n_clusters", true⟩],
    true, false, "sklearn", "AgglomerativeClustering"⟩,
   ⟨"kmeans", [⟨"X", false⟩, ⟨"n_clusters", true⟩, ⟨"seed", true⟩],
    true, false, "sklearn", "KMeans"⟩,
   ⟨"affinity_propagation",
    [⟨"X", false⟩, ⟨"damping", true⟩, ⟨"preference", true⟩, ⟨"verbose", true⟩,
     ⟨"max_iter", true⟩],
    true, false, "sklearn", "AffinityPropagation"⟩,
   ⟨"spectral", [⟨"X", false⟩, ⟨"n_clusters", true⟩, ⟨"n_jobs", true⟩,
     ⟨"affinity", true⟩],
    true, false, "sklearn", "SpectralClustering"⟩,
   ⟨"gaussian_mixture",
    [⟨"X", false⟩, ⟨"n_clusters", true⟩, ⟨"covariance_type", true⟩,
     ⟨"best_model", true⟩, ⟨"max_clusters", true⟩, ⟨"random_state", true⟩],
    true, false, "sklearn", "GaussianMixture"⟩,
   ⟨"hdbscan", [⟨"X", false⟩, ⟨"min_cluster_size", true⟩,
     ⟨"gen_min_span_tree", true⟩],
    true, false, "hdbscan", "HDBSCAN"⟩,
   ⟨"ward_spatial", [⟨"X", false⟩, ⟨"w", false⟩, ⟨"n_clusters", true⟩],
    true, true, "sklearn", "AgglomerativeClustering"⟩,
   ⟨"spenc", [⟨"X", false⟩, ⟨"w", false⟩, ⟨"n_clusters", true⟩, ⟨"gamma", true⟩],
    true, true, "spenc", "SPENC"⟩,
   ⟨"skater", [⟨"X", false⟩, ⟨"w", false⟩, ⟨"n_clusters", true⟩, ⟨"floor", true⟩,
     ⟨"trace", true⟩, ⟨"islands", true⟩],
    true, true, "region", "Spanning_Forest"⟩,
   ⟨"azp", [⟨"X", false⟩, ⟨"w", false⟩, ⟨"n_clusters", true⟩],
    true, true, "region", "AZP"⟩,
   ⟨"max_p", [⟨"X", false⟩, ⟨"w", false⟩, ⟨"threshold_variable", true⟩,
     ⟨"threshold", true⟩],
    true, true, "region", "MaxPRegionsHeu"⟩]

/-- A top-level statement of the module: a `from ... import ...`, an
`import ... as ...`, a function definition, or a module-level assignment
(the last constructor exists so that its absence is a checkable fact). -/
inductive TopStmt where
  | importFrom (module : String) (names : List String)
  | importAs (module : String) (asName : String)
  | funcDef (name : String)
  | assign (target : String)
deriving Repr, DecidableEq

/-- Whether a top-level statement writes a module-level name outside of the
imports and the function definitions. -/
def TopStmt.isAssign : TopStmt → Bool
  | TopStmt.assign _ => true
  | _ => false

/-- The name defined by a top-level `def`, when the statement is one. -/
def TopStmt.defName : TopStmt → Option String
  | TopStmt.funcDef n => some n
  | _ => Option.none

/-- The complete top-level statement list of cluster.py, in source order:
the nine import statements of lines 1-11 and the eleven function
definitions.  No other top-level statement occurs in the file; in
particular there is no module-level assignment and hence no module-level
mutable state. -/
def moduleBody : List TopStmt :=
  [TopStmt.importFrom "warnings" ["warn"],
   TopStmt.importAs "numpy" "np",
   TopStmt.importFrom "hdbscan" ["HDBSCAN"],
   TopStmt.importFrom "region.max_p_regions.heuristics" ["MaxPRegionsHeu"],
   TopStmt.importFrom "region.p_regions.azp" ["AZP"],
   TopStmt.importFrom "region.skater.skater" ["Spanning_Forest"],
   TopStmt.importFrom "sklearn.cluster"
     ["AffinityPropagation", "AgglomerativeClustering", "KMeans",
      "SpectralClustering"],
   TopStmt.importFrom "sklearn.mixture" ["GaussianMixture"],
   TopStmt.importFrom "spenc" ["SPENC"],
   TopStmt.funcDef "ward", TopStmt.funcDef "kmeans",
   TopStmt.funcDef "affinity_propagation", TopStmt.funcDef "spectral",
   TopStmt.funcDef "gaussian_mixture", TopStmt.funcDef "hdbscan",
   TopStmt.funcDef "ward_spatial", TopStmt.funcDef "spenc",
   TopStmt.funcDef "skater", TopStmt.funcDef "azp", TopStmt.funcDef "max_p"]

/-! The name-to-function view: the module's functions are selectable by
name (`getattr(module, name)`), and a caller who picked a name passes the
common `(attribute matrix, optional spatial weights)` argument pair; every
other parameter then takes its declared default. -/

/-- The common call shape of the spec: an attribute matrix, a spatial
weights object (ignored by the aspatial adapters), and extra keyword
arguments. -/
structure Call where
  X : Val
  w : Val
  kwargs : KW

/-- The name-to-function registry: each adapter name mapped to its function,
applied to the common call shape with every other parameter at the default
value declared on its `def` line. -/
def registry : List (String × (Call → Nat → AdapterOutcome)) :=
  [("ward", fun c fr => ward c.X 5 c.kwargs fr),
   ("kmeans", fun c fr => kmeans c.X 5 Val.none c.kwargs fr),
   ("affinity_propagation", fun c fr =>
      affinity_propagation c.X (Val.rat (4 / 5)) (Val.int (-1000))
        (Val.bool false) (Val.int 500) c.kwargs fr),
   ("spectral", fun c fr => spectral c.X 5 (-1) "rbf" c.kwargs fr),
   ("gaussian_mixture", fun c fr =>
      gaussian_mixture c.X 5 "full" (Val.bool false) 10 Val.none c.kwargs
        (fun _ _ => 0) fr),
   ("hdbscan", fun c fr => hdbscan c.X 5 (Val.bool true) c.kwargs fr),
   ("ward_spatial", fun c fr => ward_spatial c.X c.w 5 c.kwargs fr),
   ("spenc", fun c fr => spenc c.X c.w 5 1 c.kwargs fr),
   ("skater", fun c fr =>
      skater c.X c.w 5 Val.negInf (Val.bool false) (Val.str "increase")
        c.kwargs fr),
   ("azp", fun c fr => azp c.X c.w 5 c.kwargs fr),
   ("max_p", fun c fr => max_p c.X c.w "count" 10 c.kwargs fr)]

/-- Selecting an algorithm by name: look the name up in the registry and
call the function on the common argument pair. -/
def dispatch (nm : String) (c : Call) (fresh : Nat) : Option AdapterOutcome :=
  match registry.find? (fun p => p.1 == nm) with
  | some p => some (p.2 c fresh)
  | Option.none => Option.none

/-- One adapter call in a call sequence: the selected name, the common
argument pair, and the allocator state the call runs under. -/
structure CallRec where
  nm : String
  c : Call
  fresh : Nat

/-- Executes one call of a sequence. -/
def execCall (r : CallRec) : Option AdapterOutcome :=
  dispatch r.nm r.c r.fresh

/-- Executes a sequence of adapter calls; each call sees only its own
arguments, which is faithful because the module body holds no assignment to
a module-level name (see `moduleBody`). -/
def runCalls (l : List CallRec) : List (Option AdapterOutcome) :=
  l.map execCall

/-- Executes a sequence of adapter calls under the module environment, which
no adapter writes: the environment is returned unchanged. -/
def runWithModule (env : List TopStmt) (l : List CallRec) :
    List TopStmt × List (Option AdapterOutcome) :=
  (env, runCalls l)

/-- Modelled from the spec: which external classes already expose a fitted
`labels_` attribute of cluster labels, so that the adapter need not set it.
The external libraries are not part of this repository; per the spec, the
model object is "augmented with a uniform labels_ attribute when necessary",
and the two augmentations in the source are `GaussianMixture` and
`Spanning_Forest` — every other class used provides `labels_` itself. -/
def classProvidesLabels (lib cls : String) : Bool :=
  (lib == "sklearn" &&
    (cls == "AgglomerativeClustering" || cls == "KMeans" ||
     cls == "AffinityPropagation" || cls == "SpectralClustering")) ||
  (lib == "hdbscan" && cls == "HDBSCAN") ||
  (lib == "spenc" && cls == "SPENC") ||
  (lib == "region" && (cls == "AZP" || cls == "MaxPRegionsHeu"))

/-- The model carries cluster labels under the name `labels_`: either the
external class provides the attribute on fitting, or the adapter assigned it
explicitly. -/
def modelHasLabels (m : ModelObj) : Bool :=
  classProvidesLabels m.lib m.cls || m.setAttrs.any (fun p => p.1 == "labels_")

/-! Helper lemmas about the BIC selection loop. -/

theorem foldl_inv {α β : Type _} (f : β → α → β) (P : β → Prop)
    (hstep : ∀ b a, P b → P (f b a)) :
    ∀ (l : List α) (b : β), P b → P (l.foldl f b) := by
  intro l
  induction l with
  | nil => exact fun b hb => hb
  | cons a t ih => exact fun b hb => ih (f b a) (hstep b a hb)

/-- The invariant of the selection loop: when `best_gmm` is bound it holds
one of the objects constructed so far, and every constructed object is a
`GaussianMixture` fitted once on `X` with no extra attributes. -/
def gmStateOk (X : Val) (s : GMState) : Prop :=
  (∀ g, s.best_gmm = some g → g ∈ s.gmms) ∧
  (∀ g, g ∈ s.gmms → g.lib = "sklearn" ∧ g.cls = "GaussianMixture" ∧
    g.fits = [⟨"fit", [Arg.pos X]⟩] ∧ g.setAttrs = [])

theorem gmStep_ok (X rs : Val) (bicF : String → Int → ℚ) (s : GMState)
    (cv : String) (n : Int) (h : gmStateOk X s) :
    gmStateOk X (gmStep X rs bicF s cv n) := by
  obtain ⟨h1, h2⟩ := h
  unfold gmStep
  split
  · refine ⟨?_, ?_⟩
    · intro g hg
      simp only [Option.some.injEq] at hg
      subst hg
      simp [List.mem_append]
    · intro g hg
      rcases List.mem_append.1 hg with hg | hg
      · exact h2 g hg
      · simp only [List.mem_singleton] at hg
        subst hg
        exact ⟨rfl, rfl, rfl, rfl⟩
  · refine ⟨?_, ?_⟩
    · intro g hg
      exact List.mem_append.2 (Or.inl (h1 g hg))
    · intro g hg
      rcases List.mem_append.1 hg with hg | hg
      · exact h2 g hg
      · simp only [List.mem_singleton] at hg
        subst hg
        exact ⟨rfl, rfl, rfl, rfl⟩

theorem gmStep_isSome (X rs : Val) (bicF : String → Int → ℚ) (s : GMState)
    (cv : String) (n : Int) (h : s.best_gmm.isSome = true) :
    (gmStep X rs bicF s cv n).best_gmm.isSome = true := by
  unfold gmStep
  split
  · rfl
  · exact h

theorem gmStep_isSome_of_inf (X rs : Val) (bicF : String → Int → ℚ)
    (s : GMState) (cv : String) (n : Int) (h : s.lowest_bic = Option.none) :
    (gmStep X rs bicF s cv n).best_gmm.isSome = true := by
  unfold gmStep
  rw [h]
  simp [ltLowest]

theorem gmLoop_ok (X rs : Val) (bicF : String → Int → ℚ) (mc : Int) (fr : Nat) :
    gmStateOk X (gmLoop X rs bicF mc fr) := by
  unfold gmLoop
  apply foldl_inv _ (gmStateOk X)
  · intro s cv hs
    exact foldl_inv _ (gmStateOk X)
      (fun s2 n h2 => gmStep_ok X rs bicF s2 cv n h2) (gmRange mc) s hs
  · refine ⟨?_, ?_⟩ <;> intro g hg <;> simp at hg

theorem gmRange_cons (mc : Int) (h : 1 ≤ mc) :
    ∃ t, gmRange mc = 1 :: t := by
  obtain ⟨k, hk⟩ : ∃ k, mc.toNat = k + 1 := ⟨mc.toNat - 1, by omega⟩
  refine ⟨((List.range k).map Nat.succ).map (fun j => (j : Int) + 1), ?_⟩
  rw [gmRange, hk, List.range_succ_eq_map]
  simp

theorem gmLoop_isSome (X rs : Val) (bicF : String → Int → ℚ) (mc : Int)
    (fr : Nat) (h : 1 ≤ mc) :
    (gmLoop X rs bicF mc fr).best_gmm.isSome = true := by
  obtain ⟨t, ht⟩ := gmRange_cons mc h
  unfold gmLoop
  rw [show cv_types = "spherical" :: ["tied", "diag", "full"] from rfl,
    List.foldl_cons]
  apply foldl_inv _ (fun s : GMState => s.best_gmm.isSome = true)
  · intro s cv hs
    exact foldl_inv _ (fun s2 : GMState => s2.best_gmm.isSome = true)
      (fun s2 n h2 => gmStep_isSome X rs bicF s2 cv n h2) (gmRange mc) s hs
  · rw [ht, List.foldl_cons]
    apply foldl_inv _ (fun s : GMState => s.best_gmm.isSome = true)
    · intro s2 n h2
      exact gmStep_isSome X rs bicF s2 "spherical" n h2
    · exact gmStep_isSome_of_inf X rs bicF _ "spherical" 1 rfl

theorem gmLoop_empty (X rs : Val) (bicF : String → Int → ℚ) (mc : Int)
    (fr : Nat) (h : mc < 1) :
    gmLoop X rs bicF mc fr =
      { nextId := fr, gmms := [], bics := [], lowest_bic := Option.none,
        best_gmm := Option.none } := by
  have hz : mc.toNat = 0 := by omega
  unfold gmLoop
  simp only [show gmRange mc = [] from by rw [gmRange, hz]; rfl,
    List.foldl_nil]
  rfl

theorem resultAll_imp (o : AdapterOutcome) (p q : AdapterResult → Bool)
    (h : ∀ r, p r = true → q r = true) (hp : resultAll o p = true) :
    resultAll o q = true := by
  unfold resultAll at hp ⊢
  cases hr : o.result with
  | none => rfl
  | some r => rw [hr] at hp; exact h r hp

/-- Whenever `gaussian_mixture` returns, the returned value is one of the
`GaussianMixture` objects constructed during the call, and it has been
fitted. -/
theorem gm_returns_fitted (X : Val) (n : Int) (ct : String) (bm : Val)
    (mc : Int) (rs : Val) (kw : KW) (bicF : String → Int → ℚ) (fr : Nat) :
    resultAll (gaussian_mixture X n ct bm mc rs kw bicF fr)
      (fittedLibModel "sklearn" "GaussianMixture") = true := by
  by_cases hbm : bm = Val.bool true
  · rcases hbg : (gmLoop X rs bicF mc fr).best_gmm with _ | g
    · simp [gaussian_mixture, hbm, gmFinish, hbg, resultAll]
    · obtain ⟨h1, h2⟩ := gmLoop_ok X rs bicF mc fr
      have hg : g ∈ (gmLoop X rs bicF mc fr).gmms := h1 g hbg
      obtain ⟨hlib, hcls, hfits, hattrs⟩ := h2 g hg
      simp only [gaussian_mixture, hbm, gmFinish, hbg, resultAll,
        fittedLibModel, eq_self_iff_true, if_true]
      simp only [Bool.and_eq_true, decide_eq_true_eq, beq_iff_eq]
      refine ⟨⟨⟨?_, ?_⟩, ?_⟩, ?_⟩
      · exact List.mem_map.2 ⟨g, hg, by rw [if_pos rfl]⟩
      · exact hlib
      · exact hcls
      · rw [hfits]; simp
  · simp [gaussian_mixture, hbm, resultAll, fittedLibModel, gmSingle]

/-- Whenever `gaussian_mixture` returns, the returned model's explicitly
assigned attributes are exactly `labels_ = predict(X)` of that model. -/
theorem gm_labels_predict (X : Val) (n : Int) (ct : String) (bm : Val)
    (mc : Int) (rs : Val) (kw : KW) (bicF : String → Int → ℚ) (fr : Nat) :
    resultAll (gaussian_mixture X n ct bm mc rs kw bicF fr)
      (fun r => r.model.setAttrs ==
        [("labels_", Val.predictOf r.model.id X)]) = true := by
  by_cases hbm : bm = Val.bool true
  · rcases hbg : (gmLoop X rs bicF mc fr).best_gmm with _ | g
    · simp [gaussian_mixture, hbm, gmFinish, hbg, resultAll]
    · simp [gaussian_mixture, hbm, gmFinish, hbg, resultAll]
  · simp [gaussian_mixture, hbm, resultAll, gmSingle]

/-- Whenever `gaussian_mixture` returns, every fit call performed on the
returned model is a `.fit(X)` call, and at least one was performed. -/
theorem gm_fits_fit_X (X : Val) (n : Int) (ct : String) (bm : Val)
    (mc : Int) (rs : Val) (kw : KW) (bicF : String → Int → ℚ) (fr : Nat) :
    resultAll (gaussian_mixture X n ct bm mc rs kw bicF fr)
      (fun r => decide (r.model.fits ≠ []) &&
        r.model.fits.all (fun f => f == ⟨"fit", [Arg.pos X]⟩)) = true := by
  by_cases hbm : bm = Val.bool true
  · rcases hbg : (gmLoop X rs bicF mc fr).best_gmm with _ | g
    · simp [gaussian_mixture, hbm, gmFinish, hbg, resultAll]
    · obtain ⟨h1, h2⟩ := gmLoop_ok X rs bicF mc fr
      have hg : g ∈ (gmLoop X rs bicF mc fr).gmms := h1 g hbg
      obtain ⟨hlib, hcls, hfits, hattrs⟩ := h2 g hg
      simp [gaussian_mixture, hbm, gmFinish, hbg, resultAll, hfits]
  · simp [gaussian_mixture, hbm, resultAll, gmSingle]

/-- Whenever `gaussian_mixture` returns, the returned model carries a
`labels_` attribute (here always by explicit assignment, since
`GaussianMixture` does not provide one). -/
theorem gm_hasLabels (X : Val) (n : Int) (ct : String) (bm : Val) (mc : Int)
    (rs : Val) (kw : KW) (bicF : String → Int → ℚ) (fr : Nat) :
    resultAll (gaussian_mixture X n ct bm mc rs kw bicF fr)
      (fun r => modelHasLabels r.model) = true := by
  refine resultAll_imp _ _ _ (fun r hr => ?_)
    (gm_labels_predict X n ct bm mc rs kw bicF fr)
  simp only [beq_iff_eq] at hr
  simp [modelHasLabels, hr]

/-- The names of the six aspatial adapters, in source order. -/
def aspatialNames : List String :=
  ["ward", "kmeans", "affinity_propagation", "spectral", "gaussian_mixture",
   "hdbscan"]

/-- The names of the five spatially-constrained adapters, in source order. -/
def spatialNames : List String :=
  ["ward_spatial", "spenc", "skater", "azp", "max_p"]

/-- The common calling convention on one `def` line: `**kwargs` accepted;
a spatially-constrained adapter starts with the required positional pair
`(X, w)`, an aspatial one starts with the required positional `X` and has
no `w` parameter. -/
def sigOk (i : AdapterInfo) : Bool :=
  i.hasKwargs &&
  (if i.spatial then
    match i.params with
    | px :: pw :: _ =>
        px.name == "X" && !px.hasDefault && pw.name == "w" && !pw.hasDefault
    | _ => false
  else
    match i.params with
    | px :: rest =>
        px.name == "X" && !px.hasDefault && rest.all (fun p => !(p.name == "w"))
    | _ => false)

/-- C1: every adapter function (ward, kmeans, affinity_propagation, spectral,
gaussian_mixture, hdbscan, ward_spatial, spenc, skater, azp, max_p)
constructs a model object from the external library, delegates to that
library's fit routine, and returns that same library model object: the
returned value is, by allocation identity, one of the objects the library
constructor produced during the call — not a copy, wrapper, or other
value — and it has been fitted. -/
theorem C1_adapters_return_fitted_library_model
    (X w seed damping preference verbose max_iter gmst fl tr isl rs bm : Val)
    (n n_jobs gamma min_cs threshold mc : Int) (ct aff tv : String)
    (kw : KW) (bicF : String → Int → ℚ) (fr : Nat) :
    returnsFittedLib (ward X n kw fr) "sklearn" "AgglomerativeClustering" = true
  ∧ returnsFittedLib (kmeans X n seed kw fr) "sklearn" "KMeans" = true
  ∧ returnsFittedLib (affinity_propagation X damping preference verbose max_iter kw fr)
      "sklearn" "AffinityPropagation" = true
  ∧ returnsFittedLib (spectral X n n_jobs aff kw fr)
      "sklearn" "SpectralClustering" = true
  ∧ returnsFittedLib (hdbscan X min_cs gmst kw fr) "hdbscan" "HDBSCAN" = true
  ∧ returnsFittedLib (ward_spatial X w n kw fr)
      "sklearn" "AgglomerativeClustering" = true
  ∧ returnsFittedLib (spenc X w n gamma kw fr) "spenc" "SPENC" = true
  ∧ returnsFittedLib (skater X w n fl tr isl kw fr)
      "region" "Spanning_Forest" = true
  ∧ returnsFittedLib (azp X w n kw fr) "region" "AZP" = true
  ∧ returnsFittedLib (max_p X w tv threshold kw fr)
      "region" "MaxPRegionsHeu" = true
  ∧ resultAll (gaussian_mixture X n ct bm mc rs kw bicF fr)
      (fittedLibModel "sklearn" "GaussianMixture") = true := by
  refine ⟨?_, ?_, ?_, ?_, ?_, ?_, ?_, ?_, ?_, ?_,
    gm_returns_fitted X n ct bm mc rs kw bicF fr⟩ <;>
    simp [ward, kmeans, affinity_propagation, spectral, hdbscan, ward_spatial,
      spenc, skater, azp, max_p, singleModel, returnsFittedLib, fittedLibModel]

/-- C2: every model object returned by an adapter carries a uniform
`labels_` attribute holding the cluster labels; the adapters whose library
model does not already provide it set it explicitly — `gaussian_mixture`
sets `model.labels_ = model.predict(X)` after fitting, `skater` sets
`model.labels_ = model.current_labels_` — and no other adapter assigns any
attribute. -/
theorem C2_uniform_labels_attribute
    (X w seed damping preference verbose max_iter gmst fl tr isl rs bm : Val)
    (n n_jobs gamma min_cs threshold mc : Int) (ct aff tv : String)
    (kw : KW) (bicF : String → Int → ℚ) (fr : Nat) :
    resultAll (ward X n kw fr) (fun r => modelHasLabels r.model) = true
  ∧ resultAll (kmeans X n seed kw fr) (fun r => modelHasLabels r.model) = true
  ∧ resultAll (affinity_propagation X damping preference verbose max_iter kw fr)
      (fun r => modelHasLabels r.model) = true
  ∧ resultAll (spectral X n n_jobs aff kw fr)
      (fun r => modelHasLabels r.model) = true
  ∧ resultAll (hdbscan X min_cs gmst kw fr)
      (fun r => modelHasLabels r.model) = true
  ∧ resultAll (ward_spatial X w n kw fr)
      (fun r => modelHasLabels r.model) = true
  ∧ resultAll (spenc X w n gamma kw fr) (fun r => modelHasLabels r.model) = true
  ∧ resultAll (skater X w n fl tr isl kw fr)
      (fun r => modelHasLabels r.model) = true
  ∧ resultAll (azp X w n kw fr) (fun r => modelHasLabels r.model) = true
  ∧ resultAll (max_p X w tv threshold kw fr)
      (fun r => modelHasLabels r.model) = true
  ∧ resultAll (gaussian_mixture X n ct bm mc rs kw bicF fr)
      (fun r => modelHasLabels r.model) = true
  ∧ resultAll (gaussian_mixture X n ct bm mc rs kw bicF fr)
      (fun r => r.model.setAttrs ==
        [("labels_", Val.predictOf r.model.id X)]) = true
  ∧ outcomeSetAttrs (skater X w n fl tr isl kw fr)
      = some [("labels_", Val.modelAttr fr "current_labels_")]
  ∧ outcomeSetAttrs (ward X n kw fr) = some []
  ∧ outcomeSetAttrs (kmeans X n seed kw fr) = some []
  ∧ outcomeSetAttrs (affinity_propagation X damping preference verbose max_iter kw fr)
      = some []
  ∧ outcomeSetAttrs (spectral X n n_jobs aff kw fr) = some []
  ∧ outcomeSetAttrs (hdbscan X min_cs gmst kw fr) = some []
  ∧ outcomeSetAttrs (ward_spatial X w n kw fr) = some []
  ∧ outcomeSetAttrs (spenc X w n gamma kw fr) = some []
  ∧ outcomeSetAttrs (azp X w n kw fr) = some []
  ∧ outcomeSetAttrs (max_p X w tv threshold kw fr) = some [] :=
  ⟨rfl, rfl, rfl, rfl, rfl, rfl, rfl, rfl, rfl, rfl,
   gm_hasLabels X n ct bm mc rs kw bicF fr,
   gm_labels_predict X n ct bm mc rs kw bicF fr,
   rfl, rfl, rfl, rfl, rfl, rfl, rfl, rfl, rfl, rfl⟩

/-- C3 counterexample: the claim that every adapter invokes the library's
`.fit()` method with `X` passed unchanged fails at a concrete input:
`azp` and `max_p` invoke `.fit_from_w()`, and the arguments `max_p` passes
do not include `X` itself (it passes `X.values`). -/
theorem C3_counterexample :
    fitMethods (azp (Val.obj 0) (Val.obj 1) 5 [] 0) = ["fit_from_w"]
  ∧ fitMethods (max_p (Val.obj 0) (Val.obj 1) "count" 10 [] 0) = ["fit_from_w"]
  ∧ decide (Val.obj 0 ∈
      fitArgVals (max_p (Val.obj 0) (Val.obj 1) "count" 10 [] 0)) = false :=
  ⟨rfl, rfl, rfl⟩

/-- C3 (amended): every adapter forwards the attribute matrix to exactly the
fit entry point the source calls — ward, kmeans, affinity_propagation,
spectral, gaussian_mixture, hdbscan, ward_spatial, spenc and skater invoke
the library's `.fit()` method with `X` passed unchanged among the
arguments, while azp and max_p invoke the library's `.fit_from_w()` method,
azp passing `X` unchanged and max_p passing `X.values` in place of `X`. -/
theorem C3_fit_forwarding
    (X w seed damping preference verbose max_iter gmst fl tr isl rs bm : Val)
    (n n_jobs gamma min_cs threshold mc : Int) (ct aff tv : String)
    (kw : KW) (bicF : String → Int → ℚ) (fr : Nat) :
    (fitMethods (ward X n kw fr) = ["fit"]
      ∧ fitArgVals (ward X n kw fr) = [X])
  ∧ (fitMethods (kmeans X n seed kw fr) = ["fit"]
      ∧ fitArgVals (kmeans X n seed kw fr) = [X])
  ∧ (fitMethods (affinity_propagation X damping preference verbose max_iter kw fr) = ["fit"]
      ∧ fitArgVals (affinity_propagation X damping preference verbose max_iter kw fr) = [X])
  ∧ (fitMethods (spectral X n n_jobs aff kw fr) = ["fit"]
      ∧ fitArgVals (spectral X n n_jobs aff kw fr) = [X])
  ∧ (fitMethods (hdbscan X min_cs gmst kw fr) = ["fit"]
      ∧ fitArgVals (hdbscan X min_cs gmst kw fr) = [X])
  ∧ (fitMethods (ward_spatial X w n kw fr) = ["fit"]
      ∧ fitArgVals (ward_spatial X w n kw fr) = [X])
  ∧ (fitMethods (spenc X w n gamma kw fr) = ["fit"]
      ∧ fitArgVals (spenc X w n gamma kw fr) = [X, Val.attr w "sparse"])
  ∧ (fitMethods (skater X w n fl tr isl kw fr) = ["fit"]
      ∧ fitArgVals (skater X w n fl tr isl kw fr) = [Val.int n, w, X, fl, tr])
  ∧ resultAll (gaussian_mixture X n ct bm mc rs kw bicF fr)
      (fun r => decide (r.model.fits ≠ []) &&
        r.model.fits.all (fun f => f == ⟨"fit", [Arg.pos X]⟩)) = true
  ∧ (fitMethods (azp X w n kw fr) = ["fit_from_w"]
      ∧ fitArgVals (azp X w n kw fr) = [X, w, Val.int n])
  ∧ (fitMethods (max_p X w tv threshold kw fr) = ["fit_from_w"]
      ∧ fitArgVals (max_p X w tv threshold kw fr)
          = [w, Val.attr X "values", Val.str tv, Val.int threshold]) :=
  ⟨⟨rfl, rfl⟩, ⟨rfl, rfl⟩, ⟨rfl, rfl⟩, ⟨rfl, rfl⟩, ⟨rfl, rfl⟩, ⟨rfl, rfl⟩,
   ⟨rfl, rfl⟩, ⟨rfl, rfl⟩, gm_fits_fit_X X n ct bm mc rs kw bicF fr,
   ⟨rfl, rfl⟩, ⟨rfl, rfl⟩⟩

/-- C4: every adapter presents the common calling convention — each
aspatial adapter takes `X` as its first required positional parameter and
has no `w` parameter, each spatially-constrained adapter takes `(X, w)` as
its first two required positional parameters, every signature ends in
`**kwargs`, and the extra keyword arguments are accepted by every adapter
without error and without affecting the call. -/
theorem C4_common_calling_convention
    (X w seed damping preference verbose max_iter gmst fl tr isl rs bm : Val)
    (n n_jobs gamma min_cs threshold mc : Int) (ct aff tv : String)
    (kw kw2 : KW) (bicF : String → Int → ℚ) (fr : Nat) :
    moduleAdapters.all sigOk = true
  ∧ (moduleAdapters.filter (fun i => !i.spatial)).map (fun i => i.name)
      = aspatialNames
  ∧ (moduleAdapters.filter (fun i => i.spatial)).map (fun i => i.name)
      = spatialNames
  ∧ ward X n kw fr = ward X n kw2 fr
  ∧ kmeans X n seed kw fr = kmeans X n seed kw2 fr
  ∧ affinity_propagation X damping preference verbose max_iter kw fr
      = affinity_propagation X damping preference verbose max_iter kw2 fr
  ∧ spectral X n n_jobs aff kw fr = spectral X n n_jobs aff kw2 fr
  ∧ gaussian_mixture X n ct bm mc rs kw bicF fr
      = gaussian_mixture X n ct bm mc rs kw2 bicF fr
  ∧ hdbscan X min_cs gmst kw fr = hdbscan X min_cs gmst kw2 fr
  ∧ ward_spatial X w n kw fr = ward_spatial X w n kw2 fr
  ∧ spenc X w n gamma kw fr = spenc X w n gamma kw2 fr
  ∧ skater X w n fl tr isl kw fr = skater X w n fl tr isl kw2 fr
  ∧ azp X w n kw fr = azp X w n kw2 fr
  ∧ max_p X w tv threshold kw fr = max_p X w tv threshold kw2 fr :=
  ⟨rfl, rfl, rfl, rfl, rfl, rfl, rfl, rfl, rfl, rfl, rfl, rfl, rfl, rfl⟩

/-- C5: the module is a name-to-function registry: each algorithm name maps
to a function selectable by that name, the lookup succeeds for every
adapter of the module, and the selected function dispatches to the
corresponding external library on the common argument pair. -/
theorem C5_name_to_function_registry (c : Call) (fr : Nat) :
    dispatch "ward" c fr = some (ward c.X 5 c.kwargs fr)
  ∧ returnsFittedLib (ward c.X 5 c.kwargs fr)
      "sklearn" "AgglomerativeClustering" = true
  ∧ dispatch "kmeans" c fr = some (kmeans c.X 5 Val.none c.kwargs fr)
  ∧ returnsFittedLib (kmeans c.X 5 Val.none c.kwargs fr)
      "sklearn" "KMeans" = true
  ∧ dispatch "affinity_propagation" c fr
      = some (affinity_propagation c.X (Val.rat (4 / 5)) (Val.int (-1000))
          (Val.bool false) (Val.int 500) c.kwargs fr)
  ∧ returnsFittedLib (affinity_propagation c.X (Val.rat (4 / 5))
      (Val.int (-1000)) (Val.bool false) (Val.int 500) c.kwargs fr)
      "sklearn" "AffinityPropagation" = true
  ∧ dispatch "spectral" c fr = some (spectral c.X 5 (-1) "rbf" c.kwargs fr)
  ∧ returnsFittedLib (spectral c.X 5 (-1) "rbf" c.kwargs fr)
      "sklearn" "SpectralClustering" = true
  ∧ dispatch "gaussian_mixture" c fr
      = some (gaussian_mixture c.X 5 "full" (Val.bool false) 10 Val.none
          c.kwargs (fun _ _ => 0) fr)
  ∧ returnsFittedLib (gaussian_mixture c.X 5 "full" (Val.bool false) 10
      Val.none c.kwargs (fun _ _ => 0) fr) "sklearn" "GaussianMixture" = true
  ∧ dispatch "hdbscan" c fr = some (hdbscan c.X 5 (Val.bool true) c.kwargs fr)
  ∧ returnsFittedLib (hdbscan c.X 5 (Val.bool true) c.kwargs fr)
      "hdbscan" "HDBSCAN" = true
  ∧ dispatch "ward_spatial" c fr = some (ward_spatial c.X c.w 5 c.kwargs fr)
  ∧ returnsFittedLib (ward_spatial c.X c.w 5 c.kwargs fr)
      "sklearn" "AgglomerativeClustering" = true
  ∧ dispatch "spenc" c fr = some (spenc c.X c.w 5 1 c.kwargs fr)
  ∧ returnsFittedLib (spenc c.X c.w 5 1 c.kwargs fr) "spenc" "SPENC" = true
  ∧ dispatch "skater" c fr
      = some (skater c.X c.w 5 Val.negInf (Val.bool false)
          (Val.str "increase") c.kwargs fr)
  ∧ returnsFittedLib (skater c.X c.w 5 Val.negInf (Val.bool false)
      (Val.str "increase") c.kwargs fr) "region" "Spanning_Forest" = true
  ∧ dispatch "azp" c fr = some (azp c.X c.w 5 c.kwargs fr)
  ∧ returnsFittedLib (azp c.X c.w 5 c.kwargs fr) "region" "AZP" = true
  ∧ dispatch "max_p" c fr = some (max_p c.X c.w "count" 10 c.kwargs fr)
  ∧ returnsFittedLib (max_p c.X c.w "count" 10 c.kwargs fr)
      "region" "MaxPRegionsHeu" = true
  ∧ moduleAdapters.all
      (fun i => (registry.find? (fun p => p.1 == i.name)).isSome) = true := by
  refine ⟨rfl, ?_, rfl, ?_, rfl, ?_, rfl, ?_, rfl, ?_, rfl, ?_, rfl, ?_, rfl,
    ?_, rfl, ?_, rfl, ?_, rfl, ?_, rfl⟩ <;>
    simp [ward, kmeans, affinity_propagation, spectral, gaussian_mixture,
      hdbscan, ward_spatial, spenc, skater, azp, max_p, gmSingle,
      singleModel, returnsFittedLib, fittedLibModel, resultAll]

/-- C6: the module offers adapters for exactly the listed algorithms — six
aspatial and five spatially-constrained, eleven in total — and the module
body contains no other function definition, hence no other clustering
entry point. -/
theorem C6_exactly_the_listed_adapters :
    moduleAdapters.map (fun i => i.name) = aspatialNames ++ spatialNames
  ∧ moduleBody.filterMap TopStmt.defName = aspatialNames ++ spatialNames
  ∧ (moduleAdapters.filter (fun i => !i.spatial)).length = 6
  ∧ (moduleAdapters.filter (fun i => i.spatial)).length = 5
  ∧ moduleAdapters.length = 11 :=
  ⟨rfl, rfl, rfl, rfl, rfl⟩

/-- C7: there is no shared state between adapter functions: the module body
contains no module-level assignment, running any sequence of calls leaves
the module environment unchanged, and the outcome of each call in a
sequence is exactly the outcome of that call run alone with its own
arguments, independent of which adapters were called before. -/
theorem C7_no_shared_state (env : List TopStmt) (l pre post : List CallRec)
    (r : CallRec) :
    moduleBody.all (fun st => !(TopStmt.isAssign st)) = true
  ∧ (runWithModule env l).1 = env
  ∧ (runCalls (pre ++ r :: post))[pre.length]? = some (execCall r) := by
  refine ⟨rfl, rfl, ?_⟩
  induction pre with
  | nil => simp [runCalls]
  | cons a t ih => simpa [runCalls] using ih

/-- C8: the keyword parameters `max_iter` of affinity_propagation,
`gen_min_span_tree` of hdbscan, and `islands` of skater are accepted but
never forwarded to the external library: two calls differing only in that
argument produce identical outcomes, with identically configured external
models. -/
theorem C8_accepted_but_unforwarded_parameters
    (X w damping preference verbose m1 m2 g1 g2 fl tr i1 i2 : Val)
    (min_cs n : Int) (kw : KW) (fr : Nat) :
    affinity_propagation X damping preference verbose m1 kw fr
      = affinity_propagation X damping preference verbose m2 kw fr
  ∧ hdbscan X min_cs g1 kw fr = hdbscan X min_cs g2 kw fr
  ∧ skater X w n fl tr i1 kw fr = skater X w n fl tr i2 kw fr :=
  ⟨rfl, rfl, rfl⟩

/-- C9: in `gaussian_mixture` with `best_model=True`, under the
precondition `max_clusters >= 1` the BIC selection loop runs at least one
iteration, the first iteration's finite BIC is below the initial infinite
`lowest_bic`, so `best_gmm` is bound when it is read and the call returns;
with `max_clusters < 1` the loop body never runs and the read of `best_gmm`
is an unbound-variable error. -/
theorem C9_best_gmm_bound_iff_loop_runs (X rs : Val) (n : Int) (ct : String)
    (mc : Int) (kw : KW) (bicF : String → Int → ℚ) (fr : Nat) :
    (1 ≤ mc →
      ((gaussian_mixture X n ct (Val.bool true) mc rs kw bicF fr).result).isSome
        = true)
  ∧ (mc < 1 →
      (gaussian_mixture X n ct (Val.bool true) mc rs kw bicF fr).result
        = Option.none) := by
  constructor
  · intro h
    have hs := gmLoop_isSome X rs bicF mc fr h
    rcases hbg : (gmLoop X rs bicF mc fr).best_gmm with _ | g
    · rw [hbg] at hs; cases hs
    · simp [gaussian_mixture, gmFinish, hbg]
  · intro h
    have he := gmLoop_empty X rs bicF mc fr h
    simp [gaussian_mixture, he, gmFinish]

/-- Witness for C9 at concrete inputs: with `max_clusters = 1` the call
returns, with `max_clusters = 0` it is the unbound-variable error. -/
theorem C9_witness :
    ((gaussian_mixture (Val.obj 0) 5 "full" (Val.bool true) 1 (Val.int 7) []
        (fun _ _ => 0) 0).result).isSome = true
  ∧ (gaussian_mixture (Val.obj 0) 5 "full" (Val.bool true) 0 (Val.int 7) []
        (fun _ _ => 0) 0).result = Option.none :=
  ⟨(C9_best_gmm_bound_iff_loop_runs (Val.obj 0) (Val.int 7) 5 "full" 1 []
      (fun _ _ => 0) 0).1 (by decide),
   (C9_best_gmm_bound_iff_loop_runs (Val.obj 0) (Val.int 7) 5 "full" 0 []
      (fun _ _ => 0) 0).2 (by decide)⟩

/-- C10: `gaussian_mixture` emits the reproducibility warning if and only
if `random_state` is `None`; when `random_state` is not `None` no warning
is raised, and in both cases the returned model is computed by the same
warning-independent computation `gmCompute`. -/
theorem C10_warning_iff_no_random_state (X : Val) (n : Int) (ct : String)
    (bm : Val) (mc : Int) (rs : Val) (kw : KW) (bicF : String → Int → ℚ)
    (fr : Nat) :
    ((gaussian_mixture X n ct bm mc rs kw bicF fr).warnings
        = if rs = Val.none then [gmWarnText] else [])
  ∧ ((gaussian_mixture X n ct bm mc rs kw bicF fr).warnings ≠ [] ↔
        rs = Val.none)
  ∧ (gaussian_mixture X n ct bm mc rs kw bicF fr).result
        = gmCompute X n ct bm mc rs kw bicF fr := by
  have hw : (gaussian_mixture X n ct bm mc rs kw bicF fr).warnings
      = if rs = Val.none then [gmWarnText] else [] := by
    by_cases hbm : bm = Val.bool true
    · rcases hE : gmFinish X (gmLoop X rs bicF mc fr) with _ | p <;>
        simp [gaussian_mixture, hbm, hE]
    · simp [gaussian_mixture, hbm]
  have hr : (gaussian_mixture X n ct bm mc rs kw bicF fr).result
      = gmCompute X n ct bm mc rs kw bicF fr := by
    by_cases hbm : bm = Val.bool true
    · rcases hE : gmFinish X (gmLoop X rs bicF mc fr) with _ | p <;>
        simp [gaussian_mixture, gmCompute, hbm, hE]
    · simp [gaussian_mixture, gmCompute, hbm]
  refine ⟨hw, ?_, hr⟩
  rw [hw]
  by_cases hrs : rs = Val.none
  · simp [hrs]
  · simp [hrs]

end Cluster
